import Mathlib

/-!
Verification of the audio-capture/chunking and dual-inference coordination
pipeline of TAWI-transcribe-and-translate.

The embedding translates the two coordinator modules:

* src/src/routes/broadcaster.jsx — the transcription side: the MediaRecorder
  callbacks (onstart, ondataavailable, onstop), the language-change and reset
  handlers, the processing useEffect that drains the chunk buffer into a blob
  and trims the decoded audio to MAX_SAMPLES, and the worker-message handler
  (onMessageReceived) with its isProcessing single-flight flag.

* src/src/routes/receiver.jsx — the translation side: the translate function
  with its disabled single-flight flag and source-equals-target short-circuit,
  the worker-message handler, the target-language onChange handler and the
  broadcast-subscription handler.

State kept in React useState/useRef pairs becomes fields of explicit state
structures; each browser or worker callback becomes a step function from state
(and the event payload) to state, paired with the list of outward actions the
callback performs (worker requests, recorder commands, scheduled retries).
JavaScript switch statements over the message status string become matches
over an inductive message type whose final constructor stands for every
status string the switch has no case for.
-/

namespace TAWI

/-- Sampling rate constant, broadcaster.jsx line 12. -/
def WHISPER_SAMPLING_RATE : Nat := 16000

/-- Maximum audio window length in seconds, broadcaster.jsx line 13. -/
def MAX_AUDIO_LENGTH : Nat := 30

/-- Maximum number of samples in one window, broadcaster.jsx line 14. -/
def MAX_SAMPLES : Nat := WHISPER_SAMPLING_RATE * MAX_AUDIO_LENGTH

/-- One audio chunk delivered by the MediaRecorder (a Blob in the source).
Its size, as tested by ondataavailable, is its byte length. -/
structure AudioChunk where
  bytes : List Nat
deriving Repr, DecidableEq

/-- Byte size of a chunk, the e.data.size the source tests. -/
def AudioChunk.size (c : AudioChunk) : Nat := c.bytes.length

/-- Capture-side state of the broadcaster. The chunks field models the
chunks useState of broadcaster.jsx; each stored chunk carries, as ghost
instrumentation for the proofs, the language that was current when
ondataavailable appended it (the source stores only the chunk itself). -/
structure CaptureState where
  recording : Bool
  chunks : List (AudioChunk × String)
  language : String
deriving Repr, DecidableEq

/-- Initial capture state: recording false, chunks empty, language the
useState default of broadcaster.jsx line 30. -/
def initCapture : CaptureState :=
  { recording := false, chunks := [], language := "en" }

/-- Handler recorderRef.current.onstart, broadcaster.jsx lines 148-151:
setRecording(true); setChunks([]). -/
def onStartHandler (s : CaptureState) : CaptureState :=
  { s with recording := true, chunks := [] }

/-- Handler recorderRef.current.onstop, broadcaster.jsx lines 163-165:
setRecording(false). -/
def onStopHandler (s : CaptureState) : CaptureState :=
  { s with recording := false }

/-- Handler recorderRef.current.ondataavailable, broadcaster.jsx lines
152-161. A chunk of positive size is appended; otherwise the buffer is left
alone and one requestData retry is scheduled after 25 ms. The second
component lists the delays, in milliseconds, of the retries the handler
schedules via setTimeout. -/
def onDataHandler (s : CaptureState) (c : AudioChunk) : CaptureState × List Nat :=
  if c.size > 0 then
    ({ s with chunks := s.chunks ++ [(c, s.language)] }, [])
  else
    (s, [25])

/-- Handler of the LanguageSelector setLanguage callback, broadcaster.jsx
lines 317-325: recorder stop, set the language state and ref, recorder
start. The stop and start run their recorder callbacks (onstop, then
onstart); a final ondataavailable flushed by stop only appends to a buffer
that the subsequent onstart clears, so the composition below is its net
effect. -/
def setLanguageHandler (s : CaptureState) (l : String) : CaptureState :=
  onStartHandler { onStopHandler s with language := l }

/-- Handler of the Reset button, broadcaster.jsx lines 328-331: recorder
stop then start. -/
def resetHandler (s : CaptureState) : CaptureState :=
  onStartHandler (onStopHandler s)

/-- Capture-side events: the recorder lifecycle callbacks and the two
UI handlers that drive them. -/
inductive CaptureEvent where
  | onStart
  | onDataAvailable (c : AudioChunk)
  | onStop
  | languageChange (l : String)
  | reset
deriving Repr, DecidableEq

/-- One capture-side step: the state after the event and the delays of the
requestData retries the event schedules. -/
def captureStep (s : CaptureState) : CaptureEvent → CaptureState × List Nat
  | .onStart => (onStartHandler s, [])
  | .onDataAvailable c => onDataHandler s c
  | .onStop => (onStopHandler s, [])
  | .languageChange l => (setLanguageHandler s l, [])
  | .reset => (resetHandler s, [])

/-- Capture state after a sequence of capture events. -/
def runCapture (s : CaptureState) (events : List CaptureEvent) : CaptureState :=
  events.foldl (fun s e => (captureStep s e).1) s

/-- Concatenation of the chunks into one blob, in append order: the
new Blob(chunks, ...) of broadcaster.jsx line 186. -/
def blobBytes (chunks : List AudioChunk) : List Nat :=
  (chunks.map AudioChunk.bytes).flatten

/-- Outcome of one run of the processing useEffect of broadcaster.jsx lines
178-210: nothing (a guard returned early), a drain submitting the blob of
the buffered chunks, or a requestData call because the buffer was empty. -/
inductive ProcessingEffect where
  | noop
  | drain (blob : List Nat)
  | requestData
deriving Repr, DecidableEq

/-- The processing useEffect of broadcaster.jsx lines 178-210. Guards in
source order: no recorder, not recording, isProcessing, status not ready.
Past the guards, a nonempty chunk list is drained into a blob and submitted;
an empty one triggers requestData. The second component is the chunk buffer
after the effect: the effect body contains no setChunks call, so the buffer
is returned unchanged on every path. -/
def processingStep (hasRecorder recording isProcessing : Bool) (status : Option String)
    (chunks : List AudioChunk) : ProcessingEffect × List AudioChunk :=
  if !hasRecorder then (.noop, chunks)
  else if !recording then (.noop, chunks)
  else if isProcessing then (.noop, chunks)
  else if status ≠ some "ready" then (.noop, chunks)
  else if chunks.length > 0 then (.drain (blobBytes chunks), chunks)
  else (.requestData, chunks)

/-- JavaScript TypedArray slice with a negative start index: slice(-n) keeps
the last n elements (all of them when the array is shorter than n). -/
def jsSliceNeg (l : List α) (n : Nat) : List α :=
  l.drop (l.length - n)

/-- Trimming of the decoded audio, broadcaster.jsx lines 195-199: when the
decoded signal is longer than MAX_SAMPLES, keep audio.slice(-MAX_SAMPLES);
otherwise submit it unmodified. -/
def trimAudio (audio : List α) : List α :=
  if audio.length > MAX_SAMPLES then jsSliceNeg audio MAX_SAMPLES else audio

/-- Specification-side reading of the trailing window: the last n samples
are the reversal of the first n samples of the reversed signal. -/
def lastSamples (n : Nat) (l : List α) : List α :=
  (l.reverse.take n).reverse

/-- Single-flight gate events: the two operations the spec names. In the
source the gate is a boolean flag (disabled.current in receiver.jsx,
isProcessing in broadcaster.jsx) tested before a request is issued and
cleared when a result arrives. -/
inductive GateEvent where
  | tryAcquire
  | release
deriving Repr, DecidableEq

/-- Try to acquire the gate: the test-then-set pattern of receiver.jsx lines
95 and 100. Returns the gate state afterwards and whether the request was
granted; a held gate denies and the request is dropped. -/
def tryAcquire (held : Bool) : Bool × Bool :=
  if held then (held, false) else (true, true)

/-- Release the gate: the flag reset of receiver.jsx line 81 and
broadcaster.jsx line 114. -/
def release (_ : Bool) : Bool := false

/-- Gate state after one event. -/
def gateStep (held : Bool) : GateEvent → Bool
  | .tryAcquire => (tryAcquire held).1
  | .release => release held

/-- Gate state after a sequence of events, starting free. -/
def gateRun (events : List GateEvent) : Bool :=
  events.foldl gateStep false

/-- Some earlier tryAcquire was granted and no release has occurred since:
the trace decomposes as a prefix after which a tryAcquire was granted,
followed by a suffix free of release events. -/
def grantedUnreleased (events : List GateEvent) : Prop :=
  ∃ t1 t2, events = t1 ++ GateEvent.tryAcquire :: t2
    ∧ (tryAcquire (gateRun t1)).2 = true
    ∧ GateEvent.release ∉ t2

/-- One model-load progress item of the broadcaster handler. -/
structure BProgressItem where
  file : String
  progress : Nat
  total : Nat
deriving Repr, DecidableEq

/-- Broadcaster-side state touched by onMessageReceived of broadcaster.jsx
lines 57-123. The tokens-per-second reading is modelled as a natural
number. -/
structure BState where
  status : Option String
  loadingMessage : String
  progressItems : List BProgressItem
  text : List String
  tps : Option Nat
  isProcessing : Bool
deriving Repr, DecidableEq

/-- Actions the broadcaster handler performs on the outside world: starting
the recorder, requesting recorder data, and broadcasting a transcript
payload of message and source language. -/
inductive BAction where
  | recorderStart
  | requestData
  | broadcastTranscript (message : Option String) (language : String)
deriving Repr, DecidableEq

/-- Messages from the transcription worker as the broadcaster switch reads
them. The final constructor stands for every status string the switch has
no case for. The complete message carries e.data.output, an array of
strings. -/
inductive BMsg where
  | loading (message : String)
  | initiate (item : BProgressItem)
  | progress (item : BProgressItem)
  | done (file : String)
  | ready
  | start
  | update (tps : Nat)
  | complete (output : List String)
  | other (status : String)
deriving Repr, DecidableEq

/-- The broadcaster onMessageReceived handler, broadcaster.jsx lines 57-123.
The language argument is languageRef.current, read by the complete case for
the broadcast payload. The broadcast message is output[0], modelled as the
optional head of the output list. A status with no case changes nothing and
performs no action. -/
def onBMessage (s : BState) (language : String) : BMsg → BState × List BAction
  | .loading m => ({ s with status := some "loading", loadingMessage := m }, [])
  | .initiate item => ({ s with progressItems := s.progressItems ++ [item] }, [])
  | .progress item =>
      ({ s with progressItems :=
          s.progressItems.map (fun p => if p.file = item.file then item else p) }, [])
  | .done f =>
      ({ s with progressItems := s.progressItems.filter (fun p => p.file ≠ f) }, [])
  | .ready => ({ s with status := some "ready" }, [.recorderStart])
  | .start => ({ s with isProcessing := true }, [.requestData])
  | .update t => ({ s with tps := some t }, [])
  | .complete out =>
      ({ s with isProcessing := false, text := out },
        [.broadcastTranscript out.head? language])
  | .other _ => (s, [])

/-- One model-load progress item of the receiver handler. -/
structure RProgressItem where
  file : String
  progress : Nat
deriving Repr, DecidableEq

/-- Receiver-side state, receiver.jsx lines 10-21: the ready flag, the
progress items, the input transcript with its source language, the target
language, the output text and the disabled single-flight flag. The useState
and useRef copies of input and the two languages always move together in
the source handlers, so one field models each pair. -/
structure RState where
  ready : Option Bool
  progressItems : List RProgressItem
  input : String
  srcLang : String
  tgtLang : String
  output : String
  disabled : Bool
deriving Repr, DecidableEq

/-- Initial receiver state, the useState defaults of receiver.jsx lines
10-21. -/
def rInit : RState :=
  { ready := none, progressItems := [], input := "Hallo.",
    srcLang := "deu_Latn", tgtLang := "eng_Latn", output := "", disabled := false }

/-- One request posted to the translation worker, receiver.jsx lines
102-106. -/
structure WorkerReq where
  text : String
  src_lang : String
  tgt_lang : String
deriving Repr, DecidableEq

/-- The translate function, receiver.jsx lines 94-107. A held gate drops the
call unchanged; equal source and target short-circuit the output to the
input; otherwise the gate is taken and a request is posted. -/
def translate (s : RState) : RState × Option WorkerReq :=
  if s.disabled then (s, none)
  else if s.srcLang = s.tgtLang then ({ s with output := s.input }, none)
  else ({ s with disabled := true },
    some { text := s.input, src_lang := s.srcLang, tgt_lang := s.tgtLang })

/-- Messages from the translation worker as the receiver switch reads them,
receiver.jsx lines 42-84. The complete constructor carries
e.data.output[0].translation_text; the final constructor stands for every
status string the switch has no case for. -/
inductive RMsg where
  | initiate (item : RProgressItem)
  | progress (file : String) (progress : Nat)
  | done (file : String)
  | ready
  | update (output : String)
  | complete (translationText : String)
  | other (status : String)
deriving Repr, DecidableEq

/-- The receiver onMessageReceived handler, receiver.jsx lines 42-84. Only
the complete case clears the disabled flag; a status with no case changes
nothing. -/
def onRMessage (s : RState) : RMsg → RState
  | .initiate item =>
      { s with ready := some false, progressItems := s.progressItems ++ [item] }
  | .progress f p =>
      { s with progressItems :=
          s.progressItems.map (fun it => if it.file = f then { it with progress := p } else it) }
  | .done f =>
      { s with progressItems := s.progressItems.filter (fun it => it.file ≠ f) }
  | .ready => { s with ready := some true }
  | .update out => { s with output := out }
  | .complete t => { s with output := t, disabled := false }
  | .other _ => s

/-- Receiver-side events: the mount effect that calls translate, the
target-language onChange handler of receiver.jsx lines 175-179, the
broadcast-subscription handler of receiver.jsx lines 115-121 (its language
payload already passed through the languageMapping table), and a worker
message. -/
inductive REvent where
  | initialTranslate
  | targetChange (l : String)
  | broadcastTranscript (message : String) (mappedLang : String)
  | workerMsg (m : RMsg)
deriving Repr, DecidableEq

/-- One receiver step: the state after the event and the worker requests the
event posts. -/
def receiverStep (s : RState) : REvent → RState × List WorkerReq
  | .initialTranslate =>
      let r := translate s
      (r.1, r.2.toList)
  | .targetChange l =>
      let r := translate { s with tgtLang := l }
      (r.1, r.2.toList)
  | .broadcastTranscript m lang =>
      let r := translate { s with input := m, srcLang := lang }
      (r.1, r.2.toList)
  | .workerMsg m => (onRMessage s m, [])

/-- Receiver state and accumulated worker requests after a sequence of
events. -/
def runReceiver (s : RState) (events : List REvent) : RState × List WorkerReq :=
  events.foldl (fun acc e =>
    let r := receiverStep acc.1 e
    (r.1, acc.2 ++ r.2)) (s, [])

/-- Helper state for the broadcaster message handler theorems: the useState
defaults of broadcaster.jsx lines 23-35. -/
def bInit : BState :=
  { status := none, loadingMessage := "", progressItems := [], text := [],
    tps := none, isProcessing := false }

theorem tryAcquire_fst (b : Bool) : (tryAcquire b).1 = true := by
  cases b <;> simp [tryAcquire]

theorem tryAcquire_snd (b : Bool) : (tryAcquire b).2 = !b := by
  cases b <;> simp [tryAcquire]

theorem gateRun_append (t : List GateEvent) (e : GateEvent) :
    gateRun (t ++ [e]) = gateStep (gateRun t) e := by
  simp [gateRun, List.foldl_append]

theorem capture_step_inv (s : CaptureState) (e : CaptureEvent)
    (h : ∀ p ∈ s.chunks, 0 < p.1.bytes.length ∧ p.2 = s.language) :
    ∀ p ∈ (captureStep s e).1.chunks,
      0 < p.1.bytes.length ∧ p.2 = (captureStep s e).1.language := by
  cases e with
  | onStart => simp [captureStep, onStartHandler]
  | onDataAvailable c =>
      by_cases hc : c.size > 0
      · intro p hp
        simp only [captureStep, onDataHandler, if_pos hc, List.mem_append,
          List.mem_singleton] at hp ⊢
        rcases hp with hp | hp
        · exact h p hp
        · subst hp
          exact ⟨hc, rfl⟩
      · intro p hp
        simp only [captureStep, onDataHandler, if_neg hc] at hp ⊢
        exact h p hp
  | onStop => simpa [captureStep, onStopHandler] using h
  | languageChange l => simp [captureStep, setLanguageHandler, onStartHandler, onStopHandler]
  | reset => simp [captureStep, resetHandler, onStartHandler, onStopHandler]

theorem capture_inv (events : List CaptureEvent) :
    ∀ s : CaptureState, (∀ p ∈ s.chunks, 0 < p.1.bytes.length ∧ p.2 = s.language) →
    ∀ p ∈ (runCapture s events).chunks,
      0 < p.1.bytes.length ∧ p.2 = (runCapture s events).language := by
  induction events with
  | nil => intro s h; simpa [runCapture] using h
  | cons e rest ih =>
      intro s h
      have hstep := capture_step_inv s e h
      simpa [runCapture, List.foldl_cons] using ih (captureStep s e).1 hstep

theorem runCapture_append_chunks (cs : List AudioChunk) :
    ∀ s : CaptureState, (∀ c ∈ cs, 0 < c.size) →
    runCapture s (cs.map CaptureEvent.onDataAvailable)
      = { s with chunks := s.chunks ++ cs.map (fun c => (c, s.language)) } := by
  induction cs with
  | nil => intro s _; simp [runCapture]
  | cons c cs ih =>
      intro s h
      have hc : 0 < c.size := h c (by simp)
      have hstep : runCapture s ((c :: cs).map CaptureEvent.onDataAvailable)
          = runCapture { s with chunks := s.chunks ++ [(c, s.language)] }
              (cs.map CaptureEvent.onDataAvailable) := by
        simp [runCapture, captureStep, onDataHandler, hc]
      rw [hstep, ih _ (fun x hx => h x (by simp [hx]))]
      simp

/-- C10: every chunk stored in the chunk buffer has positive byte size, over
every sequence of capture events from the initial state: ondataavailable
appends a chunk only when its size is positive, and onstart (also reached by
the language-change and reset handlers) resets the buffer to empty. -/
theorem c10_buffer_chunks_positive (events : List CaptureEvent) (p : AudioChunk × String)
    (hp : p ∈ (runCapture initCapture events).chunks) : 0 < p.1.bytes.length :=
  (capture_inv events initCapture (by simp [initCapture]) p hp).1

theorem c10_buffer_chunks_positive_witness :
    0 < ((⟨⟨[7]⟩, "en"⟩ : AudioChunk × String)).1.bytes.length :=
  c10_buffer_chunks_positive [.onStart, .onDataAvailable ⟨[7]⟩] ⟨⟨[7]⟩, "en"⟩ (by decide)

/-- C8: a language change stops and restarts the recorder, and the restart
clears the chunk buffer, so every chunk held in the buffer was captured
under the current language setting: a drained window therefore never mixes
audio of two different language settings. Each buffered chunk carries, as
ghost data, the language current when it was appended, and the invariant
says that tag always equals the current language. -/
theorem c8_no_language_mixing (events : List CaptureEvent) (p : AudioChunk × String)
    (hp : p ∈ (runCapture initCapture events).chunks) :
    p.2 = (runCapture initCapture events).language :=
  (capture_inv events initCapture (by simp [initCapture]) p hp).2

theorem c8_no_language_mixing_witness :
    ((⟨⟨[5]⟩, "sw"⟩ : AudioChunk × String)).2
      = (runCapture initCapture
          [.onStart, .onDataAvailable ⟨[9]⟩, .languageChange "sw",
            .onDataAvailable ⟨[5]⟩]).language :=
  c8_no_language_mixing
    [.onStart, .onDataAvailable ⟨[9]⟩, .languageChange "sw", .onDataAvailable ⟨[5]⟩]
    ⟨⟨[5]⟩, "sw"⟩ (by decide)

/-- C1 counterexample: the claim says the buffer is empty immediately after
a drain, but the processing effect of broadcaster.jsx lines 178-210 contains
no setChunks call: after draining a buffer holding one chunk the buffer
still holds that chunk and is not empty, so the next drain sees it again. -/
theorem c1_buffer_not_emptied_counterexample :
    processingStep true true false (some "ready") [⟨[7]⟩]
      = (.drain [7], [⟨[7]⟩])
    ∧ ([(⟨[7]⟩ : AudioChunk)] : List AudioChunk) ≠ [] := by decide

/-- C1 (amended): for every nonempty sequence of positive-size appended
chunks followed by a drain, the drain returns exactly the appended chunks
concatenated in append order, but the buffer is left unchanged by the drain,
still holding those chunks; the buffer is reset only when the recorder
starts a new segment (onstart). -/
theorem c1_drain_order_buffer_unchanged (cs : List AudioChunk)
    (h1 : ∀ c ∈ cs, 0 < c.size) (h2 : cs ≠ []) :
    (runCapture initCapture
        (CaptureEvent.onStart :: cs.map CaptureEvent.onDataAvailable)).chunks.map Prod.fst = cs
    ∧ processingStep true true false (some "ready") cs = (.drain (blobBytes cs), cs) := by
  constructor
  · have hrun : runCapture initCapture
        (CaptureEvent.onStart :: cs.map CaptureEvent.onDataAvailable)
        = runCapture (onStartHandler initCapture) (cs.map CaptureEvent.onDataAvailable) := by
      simp [runCapture, captureStep]
    rw [hrun, runCapture_append_chunks cs _ h1]
    simp [onStartHandler, initCapture, List.map_map, Function.comp_def]
  · have hl : cs.length > 0 := List.length_pos.mpr h2
    simp [processingStep, hl]

theorem c1_drain_order_buffer_unchanged_witness :
    (runCapture initCapture
        (CaptureEvent.onStart ::
          [AudioChunk.mk [3], AudioChunk.mk [4, 5]].map CaptureEvent.onDataAvailable)).chunks.map
        Prod.fst = [AudioChunk.mk [3], AudioChunk.mk [4, 5]]
    ∧ processingStep true true false (some "ready") [AudioChunk.mk [3], AudioChunk.mk [4, 5]]
        = (.drain (blobBytes [AudioChunk.mk [3], AudioChunk.mk [4, 5]]),
            [AudioChunk.mk [3], AudioChunk.mk [4, 5]]) :=
  c1_drain_order_buffer_unchanged [AudioChunk.mk [3], AudioChunk.mk [4, 5]]
    (by decide) (by decide)

/-- C3: decoded audio longer than MAX_SAMPLES is trimmed to exactly the last
MAX_SAMPLES samples (oldest dropped), and audio of length at most
MAX_SAMPLES is submitted unmodified. -/
theorem c3_trim_keeps_trailing_window (l : List Int) :
    (MAX_SAMPLES < l.length →
      (trimAudio l).length = MAX_SAMPLES ∧ trimAudio l = lastSamples MAX_SAMPLES l)
    ∧ (l.length ≤ MAX_SAMPLES → trimAudio l = l) := by
  constructor
  · intro h
    have ht : trimAudio l = jsSliceNeg l MAX_SAMPLES := by
      simp only [trimAudio, gt_iff_lt, if_pos h]
    constructor
    · rw [ht]
      simp only [jsSliceNeg, List.length_drop]
      omega
    · rw [ht]
      show l.rtake MAX_SAMPLES = lastSamples MAX_SAMPLES l
      rw [List.rtake_eq_reverse_take_reverse]
      rfl
  · intro h
    simp only [trimAudio, gt_iff_lt]
    rw [if_neg (by omega)]

theorem c3_trim_keeps_trailing_window_witness :
    trimAudio ([1, 2] : List Int) = [1, 2] :=
  (c3_trim_keeps_trailing_window [1, 2]).2 (by decide)

/-- C7: a zero-length chunk delivered by ondataavailable is not appended to
the buffer and schedules exactly one requestData retry after 25 ms, and the
processing effect never drains an empty buffer as a valid window: with the
buffer empty it either returns early or issues requestData. -/
theorem c7_empty_chunk_single_retry (s : CaptureState) (c : AudioChunk)
    (hr rec proc : Bool) (st : Option String) (hc : c.size = 0) :
    captureStep s (.onDataAvailable c) = (s, [25])
    ∧ ((processingStep hr rec proc st []).1 = .noop
        ∨ (processingStep hr rec proc st []).1 = .requestData) := by
  constructor
  · simp [captureStep, onDataHandler, hc]
  · simp only [processingStep]
    split_ifs <;> simp_all

theorem c7_empty_chunk_single_retry_witness :
    captureStep initCapture (.onDataAvailable ⟨[]⟩) = (initCapture, [25])
    ∧ ((processingStep true true false (some "ready") []).1 = .noop
        ∨ (processingStep true true false (some "ready") []).1 = .requestData) :=
  c7_empty_chunk_single_retry initCapture ⟨[]⟩ true true false (some "ready") rfl

/-- C9: a translate call made while the translate gate is held is dropped
with no observable effect: the whole receiver state (output, input, both
languages, the gate flag) is returned unchanged and no worker request is
posted. -/
theorem c9_held_gate_drops_silently (s : RState) (h : s.disabled = true) :
    translate s = (s, none) := by
  simp [translate, h]

theorem c9_held_gate_drops_silently_witness :
    translate { rInit with disabled := true } = ({ rInit with disabled := true }, none) :=
  c9_held_gate_drops_silently { rInit with disabled := true } rfl

/-- C6 counterexample: with the translate gate held, a call with equal
source and target languages does not set the output to the input text (the
gate check precedes the short-circuit), refuting the unconditional claim
that requestTranslation with equal languages always sets the output. -/
theorem c6_shortcircuit_counterexample :
    (translate { rInit with tgtLang := "deu_Latn", disabled := true }).2 = none
    ∧ (translate { rInit with tgtLang := "deu_Latn", disabled := true }).1.output
        ≠ ({ rInit with tgtLang := "deu_Latn", disabled := true } : RState).input := by
  decide

/-- C6 (amended): when source equals target language, translate posts no
worker request and leaves the gate flag unchanged, and, provided the gate is
free, sets the output to the input text unchanged; while the gate is held
the call has no effect at all, so the output is not set. -/
theorem c6_shortcircuit_when_free (s : RState) (h : s.srcLang = s.tgtLang) :
    (translate s).2 = none ∧ (translate s).1.disabled = s.disabled
    ∧ (s.disabled = false → (translate s).1.output = s.input) := by
  by_cases hd : s.disabled
  · simp [translate, hd]
  · simp [translate, hd, h]

theorem c6_shortcircuit_when_free_witness :
    (translate { rInit with tgtLang := "deu_Latn" }).2 = none
    ∧ (translate { rInit with tgtLang := "deu_Latn" }).1.disabled
        = ({ rInit with tgtLang := "deu_Latn" } : RState).disabled
    ∧ (({ rInit with tgtLang := "deu_Latn" } : RState).disabled = false →
        (translate { rInit with tgtLang := "deu_Latn" }).1.output
          = ({ rInit with tgtLang := "deu_Latn" } : RState).input) :=
  c6_shortcircuit_when_free { rInit with tgtLang := "deu_Latn" } rfl

theorem gateRun_eq_true_iff (t : List GateEvent) :
    gateRun t = true ↔ grantedUnreleased t := by
  induction t using List.reverseRecOn with
  | nil =>
      simp only [gateRun, List.foldl_nil]
      constructor
      · intro h; cases h
      · rintro ⟨t1, t2, h, -, -⟩
        exact (List.cons_ne_nil _ _ (List.append_eq_nil.mp h.symm).2).elim
  | append_singleton t e ih =>
      cases e with
      | release =>
          rw [gateRun_append]
          simp only [gateStep, release]
          constructor
          · intro h; cases h
          · rintro ⟨t1, t2, h, -, hn⟩
            rcases List.eq_nil_or_concat t2 with h2 | ⟨t2a, c, rfl⟩
            · subst h2
              have := (List.append_inj' h rfl).2
              simp at this
            · rw [List.concat_eq_append] at h hn
              rw [← List.cons_append, ← List.append_assoc] at h
              have hc := (List.append_inj' h rfl).2
              simp only [List.cons.injEq] at hc
              exact absurd (by simp [hc.1.symm] : GateEvent.release ∈ t2a ++ [c]) hn
      | tryAcquire =>
          rw [gateRun_append]
          simp only [gateStep, tryAcquire_fst]
          constructor
          · intro _
            rcases Bool.eq_false_or_eq_true (gateRun t) with ht | hf
            · obtain ⟨t1, t2, rfl, hgr, hn⟩ := ih.mp ht
              refine ⟨t1, t2 ++ [GateEvent.tryAcquire], by simp, hgr, ?_⟩
              simp [hn]
            · exact ⟨t, [], by simp, by simp [tryAcquire_snd, hf], by simp⟩
          · intro _; trivial

/-- C2 counterexample: the claim says release is performed exactly once per
granted request when its result arrives, but when the result of the granted
translation request arrives as an error report (a status the receiver switch
has no case for), the gate is not released: after the initial granted
translate and an error message the disabled flag is still set, even though
exactly one request was granted and its result arrived. -/
theorem c2_error_result_no_release_counterexample :
    (runReceiver rInit [REvent.initialTranslate, REvent.workerMsg (RMsg.other "error")]).1.disabled
      = true
    ∧ (runReceiver rInit [REvent.initialTranslate, REvent.workerMsg (RMsg.other "error")]).2
        = [{ text := "Hallo.", src_lang := "deu_Latn", tgt_lang := "eng_Latn" }] := by
  decide

/-- C2 (amended): for each inference kind separately, tryAcquire returns
denied exactly when some earlier tryAcquire was granted and no matching
release has occurred since (the single-flight trace invariant); the gate of
a kind is released when the success (complete) result of that kind arrives
— but an error result releases nothing, so release is performed once per
granted request only for requests that end in a complete message. -/
theorem c2_gate_denied_iff_granted_unreleased (t : List GateEvent) (r : RState)
    (tr : String) (b : BState) (lang : String) (out : List String) :
    ((tryAcquire (gateRun t)).2 = false ↔ grantedUnreleased t)
    ∧ (onRMessage r (.complete tr)).disabled = false
    ∧ (onBMessage b lang (.complete out)).1.isProcessing = false := by
  refine ⟨?_, rfl, rfl⟩
  have hb : ((!(gateRun t)) = false) ↔ gateRun t = true := by
    cases gateRun t <;> simp
  rw [tryAcquire_snd, hb]
  exact gateRun_eq_true_iff t

theorem c2_gate_denied_iff_granted_unreleased_witness :
    grantedUnreleased [GateEvent.tryAcquire] :=
  ((c2_gate_denied_iff_granted_unreleased [GateEvent.tryAcquire] rInit "" bInit "en" []).1).mp
    rfl

/-- C4 counterexample: starting from the receiver defaults, a granted
translation toward eng_Latn, a target-language change to fra_Latn while that
request is in flight, and then the completion of the in-flight request
produce exactly one worker request in the whole run — the original one
toward eng_Latn. No translation toward the new target fra_Latn is ever
issued, refuting the claim that completion re-triggers translation toward
the new target language. -/
theorem c4_no_retrigger_counterexample :
    (runReceiver rInit
        [REvent.initialTranslate, REvent.targetChange "fra_Latn",
          REvent.workerMsg (RMsg.complete "Hello.")]).2
      = [{ text := "Hallo.", src_lang := "deu_Latn", tgt_lang := "eng_Latn" }]
    ∧ (runReceiver rInit
        [REvent.initialTranslate, REvent.targetChange "fra_Latn",
          REvent.workerMsg (RMsg.complete "Hello.")]).1.tgtLang = "fra_Latn"
    ∧ (runReceiver rInit
        [REvent.initialTranslate, REvent.targetChange "fra_Latn",
          REvent.workerMsg (RMsg.complete "Hello.")]).1.disabled = false := by
  decide

/-- C4 (amended): a target-language change while a translation request is in
flight records the new target language but drops the translate call
entirely, and the completion of the in-flight request only stores the output
and releases the gate, issuing no worker request: no re-translation toward
the new target is triggered, and the new target takes effect only at the
next translate invocation. The in-flight request itself is not interrupted
(no event revokes an issued request). -/
theorem c4_inflight_target_change_dropped (s : RState) (l tr : String)
    (h : s.disabled = true) :
    receiverStep s (.targetChange l) = ({ s with tgtLang := l }, [])
    ∧ receiverStep s (.workerMsg (.complete tr))
        = ({ s with output := tr, disabled := false }, []) := by
  constructor
  · simp [receiverStep, translate, h]
  · simp [receiverStep, onRMessage]

theorem c4_inflight_target_change_dropped_witness :
    receiverStep { rInit with disabled := true } (.targetChange "fra_Latn")
      = ({ ({ rInit with disabled := true } : RState) with tgtLang := "fra_Latn" }, [])
    ∧ receiverStep { rInit with disabled := true } (.workerMsg (.complete "Hello."))
      = ({ ({ rInit with disabled := true } : RState) with
            output := "Hello.", disabled := false }, []) :=
  c4_inflight_target_change_dropped { rInit with disabled := true } "fra_Latn" "Hello." rfl

/-- C5 counterexample: with the transcription gate held, a worker error
report (a status the broadcaster switch has no case for) leaves
isProcessing set and performs no action: the gate is not released on
failure, refuting the claim that an error still releases the gate of its
kind. -/
theorem c5_error_leaves_gate_held_counterexample :
    (onBMessage { bInit with status := some "ready", isProcessing := true } "en"
        (.other "error")).1.isProcessing = true
    ∧ (onBMessage { bInit with status := some "ready", isProcessing := true } "en"
        (.other "error")).2 = [] := by
  decide

/-- C5 (amended): an error report from an inference worker matches no case
of either onMessageReceived switch, so the state of the affected pipeline —
in particular its single-flight gate — is left entirely unchanged and no
action is performed: the gate of a kind is released only by that kind's
complete message, and a request that ends in an error leaves its pipeline
gated until a later complete arrives. -/
theorem c5_error_keeps_gate (b : BState) (r : RState) (lang status tr : String)
    (out : List String) :
    onBMessage b lang (.other status) = (b, [])
    ∧ onRMessage r (.other status) = r
    ∧ (onBMessage b lang (.complete out)).1.isProcessing = false
    ∧ (onRMessage r (.complete tr)).disabled = false :=
  ⟨rfl, rfl, rfl, rfl⟩

end TAWI
